import Mathlib

/-!
# Boot sequencer of the dino skull sketch (`src/main.cpp`)

The sketch has two entry points, `setup()` and `loop()`, which only call the
hardware abstraction layer: `Serial.begin`, `Serial.println`, `delay`,
`pinMode`, `digitalWrite`.  The development below embeds them as state
transformers over an explicit hardware state: every call appends one event to
a trace and updates the pin map or the text of the serial stream.
-/

set_option maxRecDepth 8192

namespace DinoSkull

/-! ## Hardware abstraction layer -/

/-- Modelled from the spec: `Arduino.h` is not part of the repository; the two
logical levels `LOW` and `HIGH` of a digital pin. -/
inductive Level where
  | LOW
  | HIGH
  deriving DecidableEq

/-- Modelled from the spec: `Arduino.h` is not part of the repository; the
direction of a pin, of which the sketch uses `OUTPUT` only. -/
inductive PinMode where
  | INPUT
  | OUTPUT
  deriving DecidableEq

/-- One call into the hardware abstraction layer, with its arguments. -/
inductive Event where
  | serialBegin (baud : Nat)
  | delay (ms : Nat)
  | pinMode (pin : Nat) (mode : PinMode)
  | digitalWrite (pin : Nat) (level : Level)
  | println (text : String)
  deriving DecidableEq

/-- Direction and level of one pin. -/
structure PinState where
  mode : PinMode
  level : Level
  deriving DecidableEq

/-- Hardware state: the calls made so far (oldest first), the state of every
pin, and all the text written to the serial stream so far. -/
structure HW where
  trace : List Event
  pins : Nat → PinState
  serial : String

/-- Hardware state at reset: nothing called yet, nothing written to the
stream, pins in the given state. -/
def powerOn (pins : Nat → PinState) : HW :=
  { trace := [], pins := pins, serial := "" }

/-- Records one call at the end of the trace. -/
def HW.emit (hw : HW) (e : Event) : HW :=
  { hw with trace := hw.trace ++ [e] }

/-- Modelled from the spec: `Serial.begin` belongs to the Arduino core, which is
not part of the repository; a call opens the diagnostic stream at the given
rate and writes no text. -/
def Serial.begin (baud : Nat) (hw : HW) : HW :=
  hw.emit (Event.serialBegin baud)

/-- Modelled from the spec: `delay` belongs to the Arduino core, which is not
part of the repository; a call pauses execution for `ms` time units and does
nothing to the pins or the stream. -/
def delay (ms : Nat) (hw : HW) : HW :=
  hw.emit (Event.delay ms)

/-- Modelled from the spec: `pinMode` belongs to the Arduino core, which is not
part of the repository; a call sets the direction of `pin` and leaves its
level and every other pin as they are. -/
def pinMode (pin : Nat) (mode : PinMode) (hw : HW) : HW :=
  { hw.emit (Event.pinMode pin mode) with
    pins := fun p => if p = pin then { hw.pins p with mode := mode } else hw.pins p }

/-- Modelled from the spec: `digitalWrite` belongs to the Arduino core, which is
not part of the repository; a call sets the level of `pin` and leaves its
direction and every other pin as they are. -/
def digitalWrite (pin : Nat) (level : Level) (hw : HW) : HW :=
  { hw.emit (Event.digitalWrite pin level) with
    pins := fun p => if p = pin then { hw.pins p with level := level } else hw.pins p }

/-- Modelled from the spec: the line terminator of the diagnostic stream, which
the Arduino core documents as a carriage return followed by a line feed. -/
def lineEnd : String := "\r\n"

/-- Modelled from the spec: `Serial.println` belongs to the Arduino core, which
is not part of the repository; a call writes its argument to the diagnostic
stream as a line of text, that is the argument followed by the line
terminator. -/
def Serial.println (text : String) (hw : HW) : HW :=
  { hw.emit (Event.println text) with serial := hw.serial ++ text ++ lineEnd }

/-! ## The sketch -/

/-- Embeds `const int LED_PIN = 8;`. -/
def LED_PIN : Nat := 8

/-- One pass through the body of the `for` loop of `setup()`. -/
def blinkBody (hw : HW) : HW :=
  let hw := digitalWrite LED_PIN Level.HIGH hw
  let hw := delay 200 hw
  let hw := digitalWrite LED_PIN Level.LOW hw
  delay 200 hw

/-- Embeds `for (int i = 0; i < 4; i++) { ... }` of `setup()`, entered with
the loop counter at `i`: the condition is tested before every pass and the
counter is incremented after it. -/
def blinkLoop (i : Nat) (hw : HW) : HW :=
  if i < 4 then blinkLoop (i + 1) (blinkBody hw) else hw
termination_by 4 - i
decreasing_by omega

/-- Embeds `void setup()`. -/
def setup (hw : HW) : HW :=
  let hw := Serial.begin 115200 hw
  let hw := delay 300 hw
  let hw := pinMode LED_PIN PinMode.OUTPUT hw
  let hw := digitalWrite LED_PIN Level.LOW hw
  let hw := Serial.println "\n=== Dino Skull Capacitive Sensor ===" hw
  let hw := Serial.println "Initializing..." hw
  let hw := blinkLoop 0 hw
  let hw := Serial.println "Ready! LED flashed 4 times." hw
  let hw := Serial.println "Project initialized successfully." hw
  Serial.println "Ready for capacitive sensor implementation." hw

/-- Embeds `void loop()`. -/
def loop (hw : HW) : HW :=
  delay 1000 hw

/-- The state after `n` executions of `loop()`, one after the other, started
in state `hw`. -/
def runLoops : Nat → HW → HW
  | 0, hw => hw
  | n + 1, hw => runLoops n (loop hw)

/-- The sketch as the Arduino core runs it: `setup()` once, then `loop()`
again and again; `run n` is the state after `n` executions of `loop()`. -/
def run (n : Nat) (hw : HW) : HW :=
  runLoops n (setup hw)

/-! ## Observers -/

/-- The calls issued while running `f` from `hw`: what `f` appended to the
trace it was given. -/
def issued (f : HW → HW) (hw : HW) : List Event :=
  (f hw).trace.drop hw.trace.length

/-- The levels written to `pin`, oldest first. -/
def pinWrites (pin : Nat) : List Event → List Level
  | [] => []
  | Event.digitalWrite p l :: es => if p = pin then l :: pinWrites pin es else pinWrites pin es
  | _ :: es => pinWrites pin es

/-- Number of places in a sequence of levels where the level changes. -/
def transitions : List Level → Nat
  | a :: b :: ls => (if a = b then 0 else 1) + transitions (b :: ls)
  | _ => 0

/-- Number of pulses in a sequence of written levels: a `HIGH` whose next
write is a `LOW`. -/
def pulses : List Level → Nat
  | Level.HIGH :: Level.LOW :: ls => 1 + pulses (Level.LOW :: ls)
  | _ :: ls => pulses ls
  | [] => 0

/-- The arguments of the `println` calls, oldest first. -/
def printed : List Event → List String
  | [] => []
  | Event.println t :: es => t :: printed es
  | _ :: es => printed es

/-- Sum of the arguments of the `delay` calls. -/
def totalDelay : List Event → Nat
  | [] => 0
  | Event.delay ms :: es => ms + totalDelay es
  | _ :: es => totalDelay es

/-- Time since the serial stream was opened, counted as the sum of the `delay`
arguments after the first `Serial.begin`; `none` while the stream is closed. -/
def timeSinceOpen : List Event → Option Nat
  | [] => none
  | Event.serialBegin _ :: es => some (totalDelay es)
  | _ :: es => timeSinceOpen es

/-- Splits text at line feeds; a carriage return right before the line feed
belongs to the terminator.  `cur` holds the current line, newest character
first.  Text after the last line feed is a line only when it is not empty. -/
def splitLinesAux : List Char → List Char → List String
  | [], cur => if cur.isEmpty then [] else [String.mk cur.reverse]
  | c :: cs, cur =>
    if c = '\n' then
      (match cur with
        | '\r' :: cur1 => String.mk cur1.reverse
        | _ => String.mk cur.reverse) :: splitLinesAux cs []
    else splitLinesAux cs (c :: cur)

/-- The lines of a text. -/
def serialLines (text : String) : List String :=
  splitLinesAux text.data []

/-- The level most recently written to `pin`, if any. -/
def lastWrite (pin : Nat) (tr : List Event) : Option Level :=
  (pinWrites pin tr).getLast?

/-- Time since the stream was opened at the moment call number `k` of the
trace is made (calls are numbered from 0). -/
def callTime (tr : List Event) (k : Nat) : Option Nat :=
  timeSinceOpen (tr.take k)

/-- Positions, counted from `k`, of the calls that satisfy `p`. -/
def indicesFrom (p : Event → Bool) : Nat → List Event → List Nat
  | _, [] => []
  | k, e :: es => if p e then k :: indicesFrom p (k + 1) es else indicesFrom p (k + 1) es

/-- Positions in the trace of the calls that satisfy `p`. -/
def indicesOf (p : Event → Bool) (tr : List Event) : List Nat :=
  indicesFrom p 0 tr

/-- Recognises a `println` call. -/
def Event.isPrint : Event → Bool
  | Event.println _ => true
  | _ => false

/-- Recognises a `digitalWrite` call. -/
def Event.isWrite : Event → Bool
  | Event.digitalWrite _ _ => true
  | _ => false

/-- Recognises a write of `level` to `pin`. -/
def Event.isWriteOf (pin : Nat) (level : Level) : Event → Bool
  | Event.digitalWrite p l => p = pin && l = level
  | _ => false

/-- The pin a call acts on, for the calls that act on a pin. -/
def Event.targetPin : Event → Option Nat
  | Event.pinMode p _ => some p
  | Event.digitalWrite p _ => some p
  | _ => none

/-- Positions, counted from `k`, of the HIGH-to-LOW transitions of `pin`: the
writes of LOW to `pin` whose preceding write to `pin` was HIGH; `last` is the
level written last. -/
def fallsFrom (pin : Nat) : Nat → Option Level → List Event → List Nat
  | _, _, [] => []
  | k, last, Event.digitalWrite p l :: es =>
    if p = pin then
      if last = some Level.HIGH ∧ l = Level.LOW then k :: fallsFrom pin (k + 1) (some l) es
      else fallsFrom pin (k + 1) (some l) es
    else fallsFrom pin (k + 1) last es
  | k, last, _ :: es => fallsFrom pin (k + 1) last es

/-- Positions in the trace of the HIGH-to-LOW transitions of `pin`. -/
def falls (pin : Nat) (tr : List Event) : List Nat :=
  fallsFrom pin 0 none tr

/-- Times since the stream was opened at which the HIGH-to-LOW transitions of
`pin` are complete, that is when the write that makes them has returned. -/
def fallTimes (pin : Nat) (tr : List Event) : List (Option Nat) :=
  (falls pin tr).map (fun k => callTime tr (k + 1))

/-- Times since the stream was opened at which the `println` calls are made. -/
def printTimes (tr : List Event) : List (Option Nat) :=
  (indicesOf Event.isPrint tr).map (callTime tr)

/-! ## Basic facts about the primitives -/

theorem blinkLoop_four (hw : HW) : blinkLoop 4 hw = hw := by
  rw [blinkLoop]; simp

theorem blinkLoop_step (i : Nat) (h : i < 4) (hw : HW) :
    blinkLoop i hw = blinkLoop (i + 1) (blinkBody hw) := by
  rw [blinkLoop]; simp [h]

/-- The loop of `setup()` terminates after exactly four passes of its body. -/
theorem blinkLoop_zero (hw : HW) :
    blinkLoop 0 hw = blinkBody (blinkBody (blinkBody (blinkBody hw))) := by
  rw [blinkLoop_step 0 (by decide), blinkLoop_step 1 (by decide),
    blinkLoop_step 2 (by decide), blinkLoop_step 3 (by decide), blinkLoop_four]

theorem blinkBody_trace (hw : HW) :
    (blinkBody hw).trace = hw.trace ++
      [Event.digitalWrite 8 Level.HIGH, Event.delay 200,
       Event.digitalWrite 8 Level.LOW, Event.delay 200] := by
  simp [blinkBody, digitalWrite, delay, HW.emit, LED_PIN]

theorem setup_trace (hw : HW) :
    (setup hw).trace = hw.trace ++
      [Event.serialBegin 115200, Event.delay 300,
       Event.pinMode 8 PinMode.OUTPUT, Event.digitalWrite 8 Level.LOW,
       Event.println "\n=== Dino Skull Capacitive Sensor ===",
       Event.println "Initializing...",
       Event.digitalWrite 8 Level.HIGH, Event.delay 200,
       Event.digitalWrite 8 Level.LOW, Event.delay 200,
       Event.digitalWrite 8 Level.HIGH, Event.delay 200,
       Event.digitalWrite 8 Level.LOW, Event.delay 200,
       Event.digitalWrite 8 Level.HIGH, Event.delay 200,
       Event.digitalWrite 8 Level.LOW, Event.delay 200,
       Event.digitalWrite 8 Level.HIGH, Event.delay 200,
       Event.digitalWrite 8 Level.LOW, Event.delay 200,
       Event.println "Ready! LED flashed 4 times.",
       Event.println "Project initialized successfully.",
       Event.println "Ready for capacitive sensor implementation."] := by
  simp [setup, blinkLoop_zero, blinkBody_trace, Serial.println, Serial.begin, pinMode,
    digitalWrite, delay, HW.emit, LED_PIN]

theorem issued_setup (hw : HW) :
    issued setup hw =
      [Event.serialBegin 115200, Event.delay 300,
       Event.pinMode 8 PinMode.OUTPUT, Event.digitalWrite 8 Level.LOW,
       Event.println "\n=== Dino Skull Capacitive Sensor ===",
       Event.println "Initializing...",
       Event.digitalWrite 8 Level.HIGH, Event.delay 200,
       Event.digitalWrite 8 Level.LOW, Event.delay 200,
       Event.digitalWrite 8 Level.HIGH, Event.delay 200,
       Event.digitalWrite 8 Level.LOW, Event.delay 200,
       Event.digitalWrite 8 Level.HIGH, Event.delay 200,
       Event.digitalWrite 8 Level.LOW, Event.delay 200,
       Event.digitalWrite 8 Level.HIGH, Event.delay 200,
       Event.digitalWrite 8 Level.LOW, Event.delay 200,
       Event.println "Ready! LED flashed 4 times.",
       Event.println "Project initialized successfully.",
       Event.println "Ready for capacitive sensor implementation."] := by
  simp [issued, setup_trace]

theorem blinkBody_serial (hw : HW) : (blinkBody hw).serial = hw.serial := by
  simp [blinkBody, digitalWrite, delay, HW.emit]

theorem setup_serial (hw : HW) :
    (setup hw).serial = hw.serial ++
      "\n=== Dino Skull Capacitive Sensor ===\r\nInitializing...\r\nReady! LED flashed 4 times.\r\nProject initialized successfully.\r\nReady for capacitive sensor implementation.\r\n" := by
  simp only [setup, blinkLoop_zero, blinkBody_serial, Serial.println, Serial.begin, pinMode,
    digitalWrite, delay, HW.emit, lineEnd, String.append_assoc]
  rfl

theorem blinkBody_pins (hw : HW) (p : Nat) :
    (blinkBody hw).pins p =
      if p = 8 then { mode := (hw.pins p).mode, level := Level.LOW } else hw.pins p := by
  by_cases h : p = 8 <;> simp [blinkBody, digitalWrite, delay, HW.emit, LED_PIN, h]

theorem setup_pins (hw : HW) (p : Nat) :
    (setup hw).pins p =
      if p = 8 then { mode := PinMode.OUTPUT, level := Level.LOW } else hw.pins p := by
  by_cases h : p = 8 <;>
    simp [setup, blinkLoop_zero, blinkBody_pins, Serial.println, Serial.begin, pinMode,
      digitalWrite, delay, HW.emit, LED_PIN, h]

theorem loop_trace (hw : HW) : (loop hw).trace = hw.trace ++ [Event.delay 1000] := by
  simp [loop, delay, HW.emit]

theorem runLoops_trace (n : Nat) (hw : HW) :
    (runLoops n hw).trace = hw.trace ++ List.replicate n (Event.delay 1000) := by
  induction n generalizing hw with
  | zero => simp [runLoops]
  | succ n ih => simp [runLoops, ih, loop_trace, List.replicate_succ]

theorem runLoops_pins (n : Nat) (hw : HW) : (runLoops n hw).pins = hw.pins := by
  induction n generalizing hw with
  | zero => rfl
  | succ n ih => rw [runLoops, ih]; rfl

theorem runLoops_serial (n : Nat) (hw : HW) : (runLoops n hw).serial = hw.serial := by
  induction n generalizing hw with
  | zero => rfl
  | succ n ih => rw [runLoops, ih]; rfl

theorem issued_runLoops (n : Nat) (hw : HW) :
    issued (runLoops n) hw = List.replicate n (Event.delay 1000) := by
  simp [issued, runLoops_trace]

theorem issued_run (n : Nat) (hw : HW) :
    issued (run n) hw =
      [Event.serialBegin 115200, Event.delay 300,
       Event.pinMode 8 PinMode.OUTPUT, Event.digitalWrite 8 Level.LOW,
       Event.println "\n=== Dino Skull Capacitive Sensor ===",
       Event.println "Initializing...",
       Event.digitalWrite 8 Level.HIGH, Event.delay 200,
       Event.digitalWrite 8 Level.LOW, Event.delay 200,
       Event.digitalWrite 8 Level.HIGH, Event.delay 200,
       Event.digitalWrite 8 Level.LOW, Event.delay 200,
       Event.digitalWrite 8 Level.HIGH, Event.delay 200,
       Event.digitalWrite 8 Level.LOW, Event.delay 200,
       Event.digitalWrite 8 Level.HIGH, Event.delay 200,
       Event.digitalWrite 8 Level.LOW, Event.delay 200,
       Event.println "Ready! LED flashed 4 times.",
       Event.println "Project initialized successfully.",
       Event.println "Ready for capacitive sensor implementation."] ++ List.replicate n (Event.delay 1000) := by
  simp [issued, run, runLoops_trace, setup_trace]

theorem totalDelay_append (a b : List Event) :
    totalDelay (a ++ b) = totalDelay a + totalDelay b := by
  induction a with
  | nil => simp [totalDelay]
  | cons e es ih => cases e <;> simp [totalDelay, ih, Nat.add_assoc]

theorem totalDelay_replicate (n ms : Nat) :
    totalDelay (List.replicate n (Event.delay ms)) = ms * n := by
  induction n with
  | zero => simp [totalDelay]
  | succ n ih => simp [List.replicate_succ, totalDelay, ih, Nat.mul_succ, Nat.add_comm]

/-! ## The boot sequence -/

/-- C1: one run of `setup()` from the empty trace leaves exactly this trace,
in this order: serial opened at 115200, delay 300, pin 8 made an output, pin 8
written LOW, the two banner prints, four times (pin 8 HIGH, delay 200, pin 8
LOW, delay 200), and the three status prints. -/
theorem setup_trace_exact (pins : Nat → PinState) (text : String) :
    (setup { trace := [], pins := pins, serial := text }).trace =
      [Event.serialBegin 115200, Event.delay 300,
       Event.pinMode 8 PinMode.OUTPUT, Event.digitalWrite 8 Level.LOW,
       Event.println "\n=== Dino Skull Capacitive Sensor ===",
       Event.println "Initializing...",
       Event.digitalWrite 8 Level.HIGH, Event.delay 200,
       Event.digitalWrite 8 Level.LOW, Event.delay 200,
       Event.digitalWrite 8 Level.HIGH, Event.delay 200,
       Event.digitalWrite 8 Level.LOW, Event.delay 200,
       Event.digitalWrite 8 Level.HIGH, Event.delay 200,
       Event.digitalWrite 8 Level.LOW, Event.delay 200,
       Event.digitalWrite 8 Level.HIGH, Event.delay 200,
       Event.digitalWrite 8 Level.LOW, Event.delay 200,
       Event.println "Ready! LED flashed 4 times.",
       Event.println "Project initialized successfully.",
       Event.println "Ready for capacitive sensor implementation."] := by
  rw [setup_trace]; rfl

/-- C2: the text that a run of `setup()` writes to the stream has exactly
these six lines, a blank one first; it comes from five `println` calls, and
the argument of the first one starts with a line feed. -/
theorem setup_stream_lines (pins : Nat → PinState) :
    serialLines (setup (powerOn pins)).serial =
      ["", "=== Dino Skull Capacitive Sensor ===", "Initializing...",
       "Ready! LED flashed 4 times.", "Project initialized successfully.",
       "Ready for capacitive sensor implementation."] ∧
    printed (setup (powerOn pins)).trace =
      ["\n=== Dino Skull Capacitive Sensor ===", "Initializing...",
       "Ready! LED flashed 4 times.", "Project initialized successfully.",
       "Ready for capacitive sensor implementation."] ∧
    (printed (setup (powerOn pins)).trace).length = 5 ∧
    (printed (setup (powerOn pins)).trace).head?.map (fun t => t.data.head?) =
      some (some '\n') := by
  rw [setup_serial, setup_trace]
  refine ⟨?_, ?_, ?_, ?_⟩ <;> rfl

/-- C3: the levels that `setup()` writes to pin 8 are LOW and then four times
HIGH, LOW: nine writes with eight changes of level between them; pin 8 is LOW
when `setup()` returns. -/
theorem setup_pin_levels (hw : HW) :
    pinWrites 8 (issued setup hw) =
      [Level.LOW, Level.HIGH, Level.LOW, Level.HIGH, Level.LOW,
       Level.HIGH, Level.LOW, Level.HIGH, Level.LOW] ∧
    transitions (pinWrites 8 (issued setup hw)) = 8 ∧
    ((setup hw).pins 8).level = Level.LOW := by
  rw [issued_setup, setup_pins]
  refine ⟨?_, ?_, ?_⟩ <;> rfl

/-- C4: after `setup()` and any number `n` of executions of `loop()` pin 8 is
LOW and the stream holds the same text as when `setup()` returned; every
execution of `loop()` issues the single call `delay(1000)` and leaves the pins
and the stream as they were. -/
theorem idle_keeps_pin_and_stream (hw : HW) (n : Nat) :
    ((runLoops n (setup hw)).pins 8).level = Level.LOW ∧
    (runLoops n (setup hw)).serial = (setup hw).serial ∧
    issued (runLoops n) (setup hw) = List.replicate n (Event.delay 1000) ∧
    (∀ s : HW, issued loop s = [Event.delay 1000] ∧ (loop s).pins = s.pins ∧
      (loop s).serial = s.serial) := by
  refine ⟨?_, runLoops_serial n _, issued_runLoops n _, ?_⟩
  · rw [runLoops_pins, setup_pins]; rfl
  · intro s
    exact ⟨by simp [issued, loop_trace], rfl, rfl⟩

/-- C5: `setup()` makes exactly four HIGH pulses on pin 8, whatever the
hardware state it starts from, and any two runs issue the same calls. -/
theorem setup_pulse_count (hw1 hw2 : HW) :
    pulses (pinWrites 8 (issued setup hw1)) = 4 ∧
    (pinWrites 8 (issued setup hw1)).count Level.HIGH = 4 ∧
    issued setup hw1 = issued setup hw2 := by
  rw [issued_setup, issued_setup]
  refine ⟨?_, ?_, ?_⟩ <;> rfl

/-! ## Timing -/

/-- C6, refuted as stated: run from the reset state, the fourth HIGH-to-LOW
transition of pin 8 is complete 1700 time units after the stream was opened,
which is not 300 + 4 * 400. -/
theorem fourth_fall_not_at_formula :
    (fallTimes 8 (setup (powerOn (fun _ =>
      { mode := PinMode.INPUT, level := Level.LOW }))).trace)[3]? = some (some 1700) ∧
    (fallTimes 8 (setup (powerOn (fun _ =>
      { mode := PinMode.INPUT, level := Level.LOW }))).trace)[3]? ≠
      some (some (300 + 4 * 400)) := by
  rw [setup_trace]; exact ⟨rfl, by decide⟩

/-- C6, amended: pin 8 makes four HIGH-to-LOW transitions during `setup()`, at
500, 900, 1300 and 1700 time units after the stream was opened; the fourth one
is at 300 + 3 * 400 + 200 = 1700, and 300 + 4 * 400 = 1900 is the time at
which the pause after it ends. -/
theorem fourth_fall_time (hw : HW) :
    falls 8 (issued setup hw) = [8, 12, 16, 20] ∧
    fallTimes 8 (issued setup hw) = [some 500, some 900, some 1300, some 1700] ∧
    (fallTimes 8 (issued setup hw))[3]? = some (some (300 + 3 * 400 + 200)) ∧
    (issued setup hw)[21]? = some (Event.delay 200) ∧
    callTime (issued setup hw) 22 = some (300 + 4 * 400) := by
  rw [issued_setup]
  refine ⟨?_, ?_, ?_, ?_, ?_⟩ <;> rfl

/-- C7: opening the stream is the first call of `setup()`; the first `println`
is call number 4 and is made 300 time units after the stream was opened, and
no `println` of `setup()` is made earlier than 300 time units after it. -/
theorem first_banner_time (hw : HW) :
    (issued setup hw).head? = some (Event.serialBegin 115200) ∧
    (indicesOf Event.isPrint (issued setup hw)).head? = some 4 ∧
    callTime (issued setup hw) 4 = some 300 ∧
    (∀ t ∈ printTimes (issued setup hw), ∃ v, t = some v ∧ 300 ≤ v) := by
  rw [issued_setup]
  refine ⟨rfl, rfl, rfl, ?_⟩
  decide

/-- Instance of C7 at the reset state: the first `println` time is 300. -/
theorem first_banner_time_witness :
    some 300 ∈ printTimes (issued setup (powerOn (fun _ =>
      { mode := PinMode.INPUT, level := Level.LOW }))) ∧
    ∃ v, some 300 = some v ∧ 300 ≤ v :=
  ⟨by rw [issued_setup]; decide,
   (first_banner_time (powerOn (fun _ =>
      { mode := PinMode.INPUT, level := Level.LOW }))).2.2.2 (some 300)
      (by rw [issued_setup]; decide)⟩

/-- C8: the delays of `setup()` add up to 1900 = 300 + 4 * (200 + 200) time
units, the three status lines are printed 1900 time units after the stream was
opened, and `setup()` followed by `n` executions of `loop()` has delayed for
1900 + 1000 * n time units. -/
theorem total_delay (hw : HW) (n : Nat) :
    totalDelay (issued setup hw) = 1900 ∧
    totalDelay (issued setup hw) = 300 + 4 * (200 + 200) ∧
    printTimes (issued setup hw) =
      [some 300, some 300, some 1900, some 1900, some 1900] ∧
    totalDelay (issued (run n) hw) = 1900 + 1000 * n := by
  refine ⟨?_, ?_, ?_, ?_⟩
  · rw [issued_setup]; rfl
  · rw [issued_setup]; rfl
  · rw [issued_setup]; rfl
  · rw [issued_run, totalDelay_append, totalDelay_replicate]; rfl

/-! ## Ordering of prints and pin writes -/

/-- C9: whenever `setup()` prints, the level written last to pin 8 is LOW.
The prints are calls 4, 5, 22, 23 and 24; the writes of LOW to pin 8 are calls
3, 8, 12, 16 and 20 and the writes of HIGH are calls 6, 10, 14 and 18, so the
banner lines come between the first LOW and the first HIGH and the status
lines come after the last LOW. -/
theorem prints_while_low (hw : HW) :
    indicesOf Event.isPrint (issued setup hw) = [4, 5, 22, 23, 24] ∧
    indicesOf (Event.isWriteOf 8 Level.LOW) (issued setup hw) = [3, 8, 12, 16, 20] ∧
    indicesOf (Event.isWriteOf 8 Level.HIGH) (issued setup hw) = [6, 10, 14, 18] ∧
    (∀ k text, (issued setup hw)[k]? = some (Event.println text) →
      lastWrite 8 ((issued setup hw).take k) = some Level.LOW) := by
  rw [issued_setup]
  refine ⟨rfl, rfl, rfl, ?_⟩
  intro k text h
  have hk : k < 25 := by
    by_contra hge
    rw [List.getElem?_eq_none (by simpa using hge)] at h
    exact Option.noConfusion h
  interval_cases k <;> first | rfl | (exact absurd h (by simp))

/-- Instance of C9 at the reset state: call 22 prints the first status line,
and the level written last to pin 8 before it is LOW. -/
theorem prints_while_low_witness :
    (issued setup (powerOn (fun _ => { mode := PinMode.INPUT, level := Level.HIGH })))[22]? =
      some (Event.println "Ready! LED flashed 4 times.") ∧
    lastWrite 8 ((issued setup (powerOn (fun _ =>
      { mode := PinMode.INPUT, level := Level.HIGH }))).take 22) = some Level.LOW :=
  ⟨by rw [issued_setup]; rfl,
   (prints_while_low (powerOn (fun _ =>
      { mode := PinMode.INPUT, level := Level.HIGH }))).2.2.2 22 "Ready! LED flashed 4 times."
      (by rw [issued_setup]; rfl)⟩

/-! ## Frame -/

/-- C10: `setup()` and `loop()` touch pin 8 only.  Every `pinMode` and
`digitalWrite` call of `setup()` followed by `n` executions of `loop()` acts
on `LED_PIN` = 8; `pinMode(8, OUTPUT)` is call 2 and every `digitalWrite`
comes later; a pin other than 8 has the mode and level it started with. -/
theorem only_led_pin_changes (hw : HW) (n p : Nat) (hp : p ≠ LED_PIN) :
    LED_PIN = 8 ∧
    (∀ e ∈ issued (run n) hw, e.targetPin = none ∨ e.targetPin = some LED_PIN) ∧
    (issued (run n) hw)[2]? = some (Event.pinMode LED_PIN PinMode.OUTPUT) ∧
    (∀ k q l, (issued (run n) hw)[k]? = some (Event.digitalWrite q l) → 2 < k) ∧
    (run n hw).pins p = hw.pins p := by
  have hp8 : p ≠ 8 := hp
  refine ⟨rfl, ?_, ?_, ?_, ?_⟩
  · rw [issued_run]
    intro e he
    rcases List.mem_append.1 he with h | h
    · clear he; revert e; decide
    · rw [List.eq_of_mem_replicate h]; exact Or.inl rfl
  · rw [issued_run]; rfl
  · rw [issued_run]
    intro k q l h
    by_contra hk
    have hk2 : k ≤ 2 := Nat.le_of_not_lt hk
    interval_cases k <;> exact absurd h (by simp)
  · rw [run, runLoops_pins, setup_pins, if_neg hp8]

/-- Instance of C10: pin 5 keeps its state through `setup()` and three
executions of `loop()`. -/
theorem only_led_pin_changes_witness :
    (5 : Nat) ≠ LED_PIN ∧
    (run 3 (powerOn (fun _ => { mode := PinMode.INPUT, level := Level.HIGH }))).pins 5 =
      { mode := PinMode.INPUT, level := Level.HIGH } :=
  ⟨by decide,
   (only_led_pin_changes (powerOn (fun _ => { mode := PinMode.INPUT, level := Level.HIGH }))
      3 5 (by decide)).2.2.2.2⟩

end DinoSkull
